import Mathlib

/-!
Verification of the Ollama provider adapter
(`src/lib/models/providers/ollama/index.ts`).

The adapter is embedded shallowly: JavaScript runtime values that can reach
`parseAndValidate(raw: any)` and the parsed JSON bodies of the catalog
endpoint are modelled by `JSValue`; thrown JavaScript errors are modelled by
`JSError` (distinguishing `TypeError` and `SyntaxError` subclasses from plain
`Error`, since the code dispatches on `err instanceof TypeError`); fallible
operations return `Except JSError α`.  Network effects are made explicit:
`getDefaultModels` takes a `FetchOutcome` describing what the single `fetch`
call and the subsequent `res.json()` did, and `getModelList` takes the result
of the external registry lookup `getConfiguredModelProviderById(this.id)` as
an `Option ConfiguredProvider` parameter.
-/

/-- A JavaScript runtime value, restricted to the shapes relevant to the
adapter: `undefined`, `null`, booleans, numbers (integral; only truthiness
and stringification are used), strings, arrays and plain objects (a list of
own properties, first binding wins on lookup). -/
inductive JSValue where
  | undefined : JSValue
  | nullv : JSValue
  | bool : Bool → JSValue
  | num : Int → JSValue
  | str : String → JSValue
  | arr : List JSValue → JSValue
  | obj : List (String × JSValue) → JSValue

/-- JavaScript truthiness: `undefined`, `null`, `false`, `0` and `""` are
falsy; every other value (including empty arrays and objects) is truthy. -/
def truthy : JSValue → Bool
  | .undefined => false
  | .nullv => false
  | .bool b => b
  | .num n => n != 0
  | .str s => s != ""
  | .arr _ => true
  | .obj _ => true

/-- `typeof v === \x7bobject\x7d` in JavaScript: true for `null`, arrays and
plain objects, false for primitives. -/
def typeofIsObject : JSValue → Bool
  | .nullv => true
  | .arr _ => true
  | .obj _ => true
  | _ => false

mutual

/-- `String(v)`: JavaScript string coercion for the values modelled here
(inside an array, `null` and `undefined` render as the empty string). -/
def jsToString : JSValue → String
  | .undefined => "undefined"
  | .nullv => "null"
  | .bool b => cond b "true" "false"
  | .num n => toString n
  | .str s => s
  | .arr l => String.intercalate "," (jsToStringElems l)
  | .obj _ => "[object Object]"

/-- Stringification of array elements for `jsToString`. -/
def jsToStringElems : List JSValue → List String
  | [] => []
  | .undefined :: rest => "" :: jsToStringElems rest
  | .nullv :: rest => "" :: jsToStringElems rest
  | v :: rest => jsToString v :: jsToStringElems rest

end

/-- Property access `v[k]` on a value already known not to be `null` or
`undefined`: objects look up the first binding, everything else yields
`undefined`. -/
def propGet (v : JSValue) (k : String) : JSValue :=
  match v with
  | .obj fields => match fields.find? (fun f => f.1 == k) with
    | some f => f.2
    | none => .undefined
  | _ => .undefined

/-- Strict equality `v === s` against a string literal, as used by
`mode !== "local"` and `m.key === key`: true exactly for the string value
with the same characters. -/
def jsStrictEqStr (v : JSValue) (s : String) : Bool :=
  match v with
  | .str t => t == s
  | _ => false

/-- A thrown JavaScript error: `TypeError`, `SyntaxError` or a plain
`new Error(msg)`.  Only `TypeError` satisfies `err instanceof TypeError`. -/
inductive JSError where
  | typeError : String → JSError
  | syntaxError : String → JSError
  | genericError : String → JSError
deriving DecidableEq

/-- `mode` field of a validated `OllamaConfig`. -/
inductive Mode where
  | local : Mode
  | cloud : Mode
deriving DecidableEq

/-- The typed provider configuration `OllamaConfig` from the source:
`mode: "local" | "cloud"; baseURL?: string; apiKey?: string`, with the
optional fields as `Option String` (`none` = `undefined`). -/
structure OllamaConfig where
  mode : Mode
  baseURL : Option String
  apiKey : Option String
deriving DecidableEq

/-- Error message thrown when `raw` is not an object. -/
def invalidConfigMsg : String := "Invalid config provided. Expected object"

/-- Error message thrown for an invalid `mode`. -/
def invalidModeMsg : String := "Invalid mode. Must be \"local\" or \"cloud\""

/-- Error message thrown when cloud mode lacks an API key. -/
def apiKeyRequiredMsg : String :=
  "API Key is required for Ollama Cloud mode. Get one at https://ollama.com"

/-- `OllamaProvider.parseAndValidate(raw)` (source lines 165-187): rejects
non-objects, defaults a falsy `mode` to `"local"`, rejects a mode that is
strictly equal to neither `"local"` nor `"cloud"`, rejects cloud mode with a
falsy `apiKey`, and otherwise returns the typed config with truthy
`baseURL`/`apiKey` coerced by `String(...)` and falsy ones mapped to
`undefined`. -/
def parseAndValidate (raw : JSValue) : Except JSError OllamaConfig :=
  if !(truthy raw && typeofIsObject raw) then
    .error (.genericError invalidConfigMsg)
  else
    let modeV := propGet raw "mode"
    let mode := if truthy modeV then modeV else .str "local"
    if !(jsStrictEqStr mode "local" || jsStrictEqStr mode "cloud") then
      .error (.genericError invalidModeMsg)
    else if jsStrictEqStr mode "cloud" && !truthy (propGet raw "apiKey") then
      .error (.genericError apiKeyRequiredMsg)
    else
      .ok
        { mode := if jsStrictEqStr mode "cloud" then .cloud else .local
          baseURL :=
            if truthy (propGet raw "baseURL") then
              some (jsToString (propGet raw "baseURL"))
            else none
          apiKey :=
            if truthy (propGet raw "apiKey") then
              some (jsToString (propGet raw "apiKey"))
            else none }

/-- The `Model` shape built by `getDefaultModels`' projection
`\x7bname: m.name, key: m.model\x7d`.  The TypeScript type annotates both
fields as `string`, but no coercion is performed at runtime, so the fields
hold whatever values the JSON entries carried; they are kept as `JSValue`. -/
structure Model where
  name : JSValue
  key : JSValue

/-- `ModelList` as built by the source: `\x7bembedding: ..., chat: ...\x7d`. -/
structure ModelList where
  embedding : List Model
  chat : List Model

/-- The registry lookup result for a provider id
(`getConfiguredModelProviderById` contract: statically configured chat and
embedding models). -/
structure ConfiguredProvider where
  chatModels : List Model
  embeddingModels : List Model

/-- The hardcoded local default base URL. -/
def localDefaultURL : String := "http://localhost:11434"

/-- The cloud base URL. -/
def cloudURL : String := "https://ollama.com"

/-- The inline base-URL computation in `getDefaultModels` (source lines
62-65): `mode === "cloud" ? "https://ollama.com" : baseURL || default`.
JavaScript `||` falls through on a falsy (absent or empty) `baseURL`. -/
def baseURLInGetDefaultModels (cfg : OllamaConfig) : String :=
  if cfg.mode = .cloud then cloudURL
  else match cfg.baseURL with
    | some s => if s = "" then localDefaultURL else s
    | none => localDefaultURL

/-- The inline base-URL computation in `loadChatModel` (source lines
130-133), a verbatim copy of the one in `getDefaultModels`. -/
def baseURLInLoadChatModel (cfg : OllamaConfig) : String :=
  if cfg.mode = .cloud then cloudURL
  else match cfg.baseURL with
    | some s => if s = "" then localDefaultURL else s
    | none => localDefaultURL

/-- The inline base-URL computation in `loadEmbeddingModel` (source lines
153-156), a verbatim copy of the one in `getDefaultModels`. -/
def baseURLInLoadEmbeddingModel (cfg : OllamaConfig) : String :=
  if cfg.mode = .cloud then cloudURL
  else match cfg.baseURL with
    | some s => if s = "" then localDefaultURL else s
    | none => localDefaultURL

/-- The spec's `resolveBaseURL(config)`: the single pure base-URL resolution
function that the three inline copies above are claimed to agree with. -/
def resolveBaseURL (cfg : OllamaConfig) : String :=
  if cfg.mode = .cloud then cloudURL
  else match cfg.baseURL with
    | some s => if s = "" then localDefaultURL else s
    | none => localDefaultURL

/-- The outbound HTTP request built by `getDefaultModels` (source lines
67-79): method, URL and the header list in construction order. -/
structure CatalogRequest where
  method : String
  url : String
  headers : List (String × String)

/-- Request construction in `getDefaultModels`: `GET \x7bbaseURL\x7d/api/tags`
with a `Content-type` header, plus `Authorization: Bearer <apiKey>` exactly
when `mode === "cloud"` and `apiKey` is truthy (source lines 67-79). -/
def catalogRequest (cfg : OllamaConfig) : CatalogRequest :=
  { method := "GET"
    url := baseURLInGetDefaultModels cfg ++ "/api/tags"
    headers :=
      ("Content-type", "application/json") ::
        (match cfg.mode, cfg.apiKey with
          | .cloud, some k => if k = "" then [] else [("Authorization", "Bearer " ++ k)]
          | _, _ => []) }

/-- What the `fetch` call and the subsequent `res.json()` did: the fetch
rejected with a transport-level `TypeError`, or a response arrived whose
body either failed JSON parsing (`SyntaxError`) or parsed to a value. -/
inductive FetchOutcome where
  | networkFailure : FetchOutcome
  | malformedJSON : FetchOutcome
  | parsed : JSValue → FetchOutcome

/-- Property access `v[k]` on an arbitrary value: accessing a property of
`null` or `undefined` throws a `TypeError`; otherwise as `propGet`. -/
def propGetE (v : JSValue) (k : String) : Except JSError JSValue :=
  match v with
  | .undefined => .error (.typeError ("Cannot read properties of undefined (reading " ++ k ++ ")"))
  | .nullv => .error (.typeError ("Cannot read properties of null (reading " ++ k ++ ")"))
  | _ => .ok (propGet v k)

/-- One step of the `data.models.map((m) => (\x7bname: m.name, key: m.model\x7d))`
callback: evaluates `m.name` then `m.model` (each throwing a `TypeError`
when `m` is `null`/`undefined`). -/
def projectEntry (m : JSValue) : Except JSError Model :=
  match propGetE m "name" with
  | .error e => .error e
  | .ok n =>
    match propGetE m "model" with
    | .error e => .error e
    | .ok k => .ok { name := n, key := k }

/-- The element-by-element run of `Array.prototype.map` with the projection
callback: the first throwing element aborts the whole map. -/
def mapProjectList : List JSValue → Except JSError (List Model)
  | [] => .ok []
  | m :: rest =>
    match projectEntry m with
    | .error e => .error e
    | .ok x =>
      match mapProjectList rest with
      | .error e => .error e
      | .ok xs => .ok (x :: xs)

/-- `models.map(...)` over the value of `data.models`: only an array has a
callable `map`; any other value makes the call expression throw a
`TypeError` (absent property, or a present non-function `map`). -/
def mapProject (v : JSValue) : Except JSError (List Model) :=
  match v with
  | .arr l => mapProjectList l
  | .undefined => .error (.typeError "Cannot read properties of undefined (reading map)")
  | .nullv => .error (.typeError "Cannot read properties of null (reading map)")
  | _ => .error (.typeError "data.models.map is not a function")

/-- The body of the `try` block in `getDefaultModels` after the response is
available (source lines 81-93): read `data.models`, map each entry to
`\x7bname, key\x7d`, and return the same list as both `embedding` and `chat`. -/
def fetchAttempt (outcome : FetchOutcome) : Except JSError ModelList :=
  match outcome with
  | .networkFailure => .error (.typeError "fetch failed")
  | .malformedJSON => .error (.syntaxError "Unexpected token, not valid JSON")
  | .parsed data =>
    match propGetE data "models" with
    | .error e => .error e
    | .ok modelsV =>
      match mapProject modelsV with
      | .error e => .error e
      | .ok models => .ok { embedding := models, chat := models }

/-- The `ConnectionError` message produced by the catch block. -/
def connectionErrorMsg : String :=
  "Error connecting to Ollama API. Please ensure the base URL is correct and the Ollama server is running."

/-- `OllamaProvider.getDefaultModels()` (source lines 59-103): run the try
block; in the catch, an error satisfying `err instanceof TypeError` is
replaced by the `ConnectionError`, every other error is rethrown unchanged.
The configuration only influences the outbound request (`catalogRequest`),
not the processing of the outcome. -/
def getDefaultModels (cfg : OllamaConfig) (outcome : FetchOutcome) :
    Except JSError ModelList :=
  match fetchAttempt outcome with
  | .error (.typeError _) => .error (.genericError connectionErrorMsg)
  | r => r

/-- The `TypeError` raised by `getConfiguredModelProviderById(this.id)!`
dereferenced when the registry has no entry: the non-null assertion is
erased at runtime, so `.embeddingModels` is read off `undefined`. -/
def registryMissingMsg : String :=
  "Cannot read properties of undefined (reading embeddingModels)"

/-- `OllamaProvider.getModelList()` (source lines 105-116): fetch the
default models, look this provider up in the registry, and concatenate
(catalog first) for embedding and chat independently. -/
def getModelList (cfg : OllamaConfig) (outcome : FetchOutcome)
    (reg : Option ConfiguredProvider) : Except JSError ModelList :=
  match getDefaultModels cfg outcome with
  | .error e => .error e
  | .ok d =>
    match reg with
    | none => .error (.typeError registryMissingMsg)
    | some p =>
      .ok { embedding := d.embedding ++ p.embeddingModels
            chat := d.chat ++ p.chatModels }

/-- The `ModelNotFoundError` message of `loadChatModel`. -/
def chatNotFoundMsg : String :=
  "Error Loading Ollama Chat Model. Invalid Model Selected"

/-- The `ModelNotFoundError` message of `loadEmbeddingModel` (note the
trailing period, absent from the chat message). -/
def embeddingNotFoundMsg : String :=
  "Error Loading Ollama Embedding Model. Invalid Model Selected."

/-- The argument record of `new OllamaLLM(\x7bbaseURL, model, apiKey\x7d)`. -/
structure OllamaLLM where
  baseURL : String
  model : String
  apiKey : Option String

/-- The argument record of `new OllamaEmbedding(\x7bmodel, baseURL, apiKey\x7d)`. -/
structure OllamaEmbedding where
  model : String
  baseURL : String
  apiKey : Option String

/-- `OllamaProvider.loadChatModel(key)` (source lines 118-140): look `key`
up in the merged chat list by `m.key === key`, throw the chat
`ModelNotFoundError` when absent, otherwise construct the chat client with
the inline-resolved base URL, `model: key`, and `apiKey` only in cloud
mode. -/
def loadChatModel (cfg : OllamaConfig) (outcome : FetchOutcome)
    (reg : Option ConfiguredProvider) (key : String) :
    Except JSError OllamaLLM :=
  match getModelList cfg outcome reg with
  | .error e => .error e
  | .ok ml =>
    match ml.chat.find? (fun m => jsStrictEqStr m.key key) with
    | none => .error (.genericError chatNotFoundMsg)
    | some _ =>
      .ok { baseURL := baseURLInLoadChatModel cfg
            model := key
            apiKey := if cfg.mode = .cloud then cfg.apiKey else none }

/-- `OllamaProvider.loadEmbeddingModel(key)` (source lines 142-163):
symmetric to `loadChatModel` over the embedding list, with its own error
message and client record. -/
def loadEmbeddingModel (cfg : OllamaConfig) (outcome : FetchOutcome)
    (reg : Option ConfiguredProvider) (key : String) :
    Except JSError OllamaEmbedding :=
  match getModelList cfg outcome reg with
  | .error e => .error e
  | .ok ml =>
    match ml.embedding.find? (fun m => jsStrictEqStr m.key key) with
    | none => .error (.genericError embeddingNotFoundMsg)
    | some _ =>
      .ok { model := key
            baseURL := baseURLInLoadEmbeddingModel cfg
            apiKey := if cfg.mode = .cloud then cfg.apiKey else none }

/-- Strict string equality agrees with propositional equality on `JSValue`. -/
theorem jsStrictEqStr_iff (v : JSValue) (s : String) :
    jsStrictEqStr v s = true ↔ v = .str s := by
  cases v <;> simp [jsStrictEqStr]

/-- Negative form of `jsStrictEqStr_iff`. -/
theorem jsStrictEqStr_eq_false_iff (v : JSValue) (s : String) :
    jsStrictEqStr v s = false ↔ v ≠ .str s := by
  cases v <;> simp [jsStrictEqStr]

/-- The `mode` value `parseAndValidate` validates: the raw `mode` property
when truthy, else the default `"local"`. -/
def modeAfterDefault (raw : JSValue) : JSValue :=
  if truthy (propGet raw "mode") then propGet raw "mode" else .str "local"

/-- On success, the typed config's optional fields are exactly the
`String(...)`-coercions of the truthy raw fields, `undefined` otherwise. -/
theorem parseAndValidate_ok_fields (raw : JSValue) (cfg : OllamaConfig)
    (hok : parseAndValidate raw = .ok cfg) :
    cfg.baseURL = (if truthy (propGet raw "baseURL") then
        some (jsToString (propGet raw "baseURL")) else none)
    ∧ cfg.apiKey = (if truthy (propGet raw "apiKey") then
        some (jsToString (propGet raw "apiKey")) else none) := by
  simp only [parseAndValidate] at hok
  split at hok
  · simp at hok
  · split at hok
    · split at hok
      · simp at hok
      · split at hok
        · simp at hok
        · injection hok with h
          subst h
          exact ⟨rfl, rfl⟩
    · split at hok
      · simp at hok
      · split at hok
        · simp at hok
        · injection hok with h
          subst h
          exact ⟨rfl, rfl⟩

/-- C1: `parseAndValidate(raw)` fails (always with a `ConfigError`, i.e. a
plain `Error`) exactly when `raw` is not a (truthy) object, or the defaulted
mode is neither `"local"` nor `"cloud"`, or the mode is `"cloud"` with a
falsy `apiKey`; on success `baseURL`/`apiKey` are the `String(...)`-coerced
raw values when truthy and `undefined` otherwise; `parseAndValidate(\x7b\x7d)`
yields the local default config, and `\x7bmode:"cloud", apiKey:"x"\x7d` yields
the cloud config with key `"x"`. -/
theorem parseAndValidate_spec :
    (∀ raw : JSValue,
      ((∃ msg, parseAndValidate raw = .error (.genericError msg)) ↔
        (¬(truthy raw = true ∧ typeofIsObject raw = true)
          ∨ (modeAfterDefault raw ≠ .str "local" ∧ modeAfterDefault raw ≠ .str "cloud")
          ∨ (modeAfterDefault raw = .str "cloud" ∧ truthy (propGet raw "apiKey") = false)))
      ∧ (∀ cfg, parseAndValidate raw = .ok cfg →
          cfg.baseURL = (if truthy (propGet raw "baseURL") then
              some (jsToString (propGet raw "baseURL")) else none)
          ∧ cfg.apiKey = (if truthy (propGet raw "apiKey") then
              some (jsToString (propGet raw "apiKey")) else none)))
    ∧ parseAndValidate (.obj []) = .ok ⟨.local, none, none⟩
    ∧ parseAndValidate (.obj [("mode", .str "cloud"), ("apiKey", .str "x")])
        = .ok ⟨.cloud, none, some "x"⟩ := by
  refine ⟨fun raw => ⟨?_, ?_⟩, by rfl, by rfl⟩
  · cases ht : truthy raw with
    | false => simp [parseAndValidate, ht]
    | true =>
      cases hto : typeofIsObject raw with
      | false => simp [parseAndValidate, ht, hto]
      | true =>
        simp only [parseAndValidate, ht, hto, modeAfterDefault, Bool.and_self,
          Bool.not_true, Bool.false_eq_true, if_false, and_self, not_true_eq_false,
          false_or]
        cases hm : truthy (propGet raw "mode") with
        | false =>
          simp only [if_false, Bool.false_eq_true]
          cases ha : truthy (propGet raw "apiKey") <;>
            simp [jsStrictEqStr, ha]
        | true =>
          simp only [if_true]
          cases hl : jsStrictEqStr (propGet raw "mode") "local" with
          | true =>
            rw [jsStrictEqStr_iff] at hl
            simp [hl, jsStrictEqStr]
          | false =>
            rw [jsStrictEqStr_eq_false_iff] at hl
            cases hc : jsStrictEqStr (propGet raw "mode") "cloud" with
            | true =>
              rw [jsStrictEqStr_iff] at hc
              cases ha : truthy (propGet raw "apiKey") <;>
                simp [hc, jsStrictEqStr, ha, hl]
            | false =>
              rw [jsStrictEqStr_eq_false_iff] at hc
              have hl2 : jsStrictEqStr (propGet raw "mode") "local" = false := by
                rw [jsStrictEqStr_eq_false_iff]; exact hl
              have hc2 : jsStrictEqStr (propGet raw "mode") "cloud" = false := by
                rw [jsStrictEqStr_eq_false_iff]; exact hc
              simp [hl2, hc2, hl, hc]
  · exact fun cfg hok => parseAndValidate_ok_fields raw cfg hok

/-- Witness for `parseAndValidate_spec` at a concrete raw config with a
truthy `baseURL` and no `apiKey`. -/
theorem parseAndValidate_spec_witness :
    (⟨Mode.local, some "http://x:1", none⟩ : OllamaConfig).baseURL
        = (if truthy (propGet (.obj [("baseURL", .str "http://x:1")]) "baseURL") then
            some (jsToString (propGet (.obj [("baseURL", .str "http://x:1")]) "baseURL"))
          else none)
      ∧ (⟨Mode.local, some "http://x:1", none⟩ : OllamaConfig).apiKey
        = (if truthy (propGet (.obj [("baseURL", .str "http://x:1")]) "apiKey") then
            some (jsToString (propGet (.obj [("baseURL", .str "http://x:1")]) "apiKey"))
          else none) :=
  (parseAndValidate_spec.1 (.obj [("baseURL", .str "http://x:1")])).2
    ⟨Mode.local, some "http://x:1", none⟩ (by rfl)

/-- C8: a falsy `mode` value on an otherwise valid raw object is treated as
absent: `raw.mode || "local"` defaults it, so validation succeeds with mode
`"local"`; in particular `\x7bmode: ""\x7d` succeeds rather than failing with
a `ConfigError` for an invalid mode. -/
theorem parseAndValidate_falsy_mode_defaults_local :
    (∀ raw : JSValue, truthy raw = true → typeofIsObject raw = true →
      truthy (propGet raw "mode") = false →
      ∃ cfg, parseAndValidate raw = .ok cfg ∧ cfg.mode = .local)
    ∧ parseAndValidate (.obj [("mode", .str "")]) = .ok ⟨.local, none, none⟩ := by
  refine ⟨fun raw ht hto hm => ?_, by rfl⟩
  simp only [parseAndValidate, ht, hto, hm, Bool.and_self, Bool.not_true,
    Bool.false_eq_true, if_false]
  exact ⟨_, rfl, rfl⟩

/-- Witness for `parseAndValidate_falsy_mode_defaults_local` at the raw
object `\x7bmode: 0\x7d`. -/
theorem parseAndValidate_falsy_mode_witness :
    ∃ cfg, parseAndValidate (.obj [("mode", .num 0)]) = .ok cfg
      ∧ cfg.mode = .local :=
  parseAndValidate_falsy_mode_defaults_local.1 (.obj [("mode", .num 0)])
    (by rfl) (by rfl) (by rfl)

/-- C9: on success, a falsy raw `baseURL` or `apiKey` (empty string, `0`,
`false`, `null`) becomes `undefined` in the typed config rather than being
string-coerced; in particular `\x7bmode:"local", baseURL:""\x7d` yields an
undefined `baseURL`, so base-URL resolution later falls back to the
hardcoded local default. -/
theorem parseAndValidate_falsy_fields_undefined :
    (∀ (raw : JSValue) (cfg : OllamaConfig), parseAndValidate raw = .ok cfg →
      (truthy (propGet raw "baseURL") = false → cfg.baseURL = none)
      ∧ (truthy (propGet raw "apiKey") = false → cfg.apiKey = none))
    ∧ parseAndValidate (.obj [("mode", .str "local"), ("baseURL", .str "")])
        = .ok ⟨.local, none, none⟩
    ∧ resolveBaseURL ⟨.local, none, none⟩ = localDefaultURL := by
  refine ⟨fun raw cfg hok => ?_, by rfl, by rfl⟩
  have h := parseAndValidate_ok_fields raw cfg hok
  constructor
  · intro hb
    rw [h.1, hb]
    simp
  · intro ha
    rw [h.2, ha]
    simp

/-- Witness for `parseAndValidate_falsy_fields_undefined` at the raw object
`\x7bbaseURL: 0, apiKey: ""\x7d`. -/
theorem parseAndValidate_falsy_fields_witness :
    (⟨Mode.local, none, none⟩ : OllamaConfig).baseURL = none
      ∧ (⟨Mode.local, none, none⟩ : OllamaConfig).apiKey = none :=
  ⟨(parseAndValidate_falsy_fields_undefined.1
      (.obj [("baseURL", .num 0), ("apiKey", .str "")])
      ⟨Mode.local, none, none⟩ (by rfl)).1 (by rfl),
   (parseAndValidate_falsy_fields_undefined.1
      (.obj [("baseURL", .num 0), ("apiKey", .str "")])
      ⟨Mode.local, none, none⟩ (by rfl)).2 (by rfl)⟩

/-- C5: the three inline base-URL computations (catalog fetch, chat load,
embedding load) agree with the single pure `resolveBaseURL` on every config,
and `resolveBaseURL` yields `"https://ollama.com"` in cloud mode, the
configured `baseURL` when set and nonempty in local mode, and the hardcoded
`"http://localhost:11434"` otherwise — independent of any environment
(`resolveBaseURL` takes no environment input; the Docker distinction affects
only a UI placeholder). -/
theorem resolveBaseURL_spec :
    (∀ cfg : OllamaConfig,
      baseURLInGetDefaultModels cfg = resolveBaseURL cfg
      ∧ baseURLInLoadChatModel cfg = resolveBaseURL cfg
      ∧ baseURLInLoadEmbeddingModel cfg = resolveBaseURL cfg)
    ∧ (∀ cfg : OllamaConfig, cfg.mode = .cloud → resolveBaseURL cfg = "https://ollama.com")
    ∧ (∀ (cfg : OllamaConfig) (s : String), cfg.mode = .local → cfg.baseURL = some s →
        s ≠ "" → resolveBaseURL cfg = s)
    ∧ (∀ cfg : OllamaConfig, cfg.mode = .local → cfg.baseURL = none →
        resolveBaseURL cfg = "http://localhost:11434")
    ∧ resolveBaseURL ⟨.local, none, none⟩ = "http://localhost:11434"
    ∧ resolveBaseURL ⟨.local, some "http://x:1", none⟩ = "http://x:1" := by
  refine ⟨fun cfg => ⟨rfl, rfl, rfl⟩, ?_, ?_, ?_, by rfl, by rfl⟩
  · intro cfg h
    simp [resolveBaseURL, h, cloudURL]
  · intro cfg s hm hb hs
    simp [resolveBaseURL, hm, hb, hs]
  · intro cfg hm hb
    simp [resolveBaseURL, hm, hb, localDefaultURL]

/-- Witness for `resolveBaseURL_spec` at concrete cloud and local configs. -/
theorem resolveBaseURL_spec_witness :
    resolveBaseURL ⟨Mode.cloud, none, some "k"⟩ = "https://ollama.com"
      ∧ resolveBaseURL ⟨Mode.local, some "http://y:2", none⟩ = "http://y:2"
      ∧ resolveBaseURL ⟨Mode.local, none, some "k"⟩ = "http://localhost:11434" :=
  ⟨resolveBaseURL_spec.2.1 ⟨Mode.cloud, none, some "k"⟩ rfl,
   resolveBaseURL_spec.2.2.1 ⟨Mode.local, some "http://y:2", none⟩ "http://y:2" rfl rfl
     (by decide),
   resolveBaseURL_spec.2.2.2.1 ⟨Mode.local, none, some "k"⟩ rfl rfl⟩

/-- C7: the catalog request carries an `Authorization` header, equal to
`"Bearer " ++ apiKey`, exactly when the mode is cloud and the API key is a
set (nonempty) string; a local-mode request never carries one. -/
theorem catalogRequest_auth_header :
    ∀ (cfg : OllamaConfig) (v : String),
      ((catalogRequest cfg).headers.lookup "Authorization" = some v ↔
        ∃ k, cfg.mode = .cloud ∧ cfg.apiKey = some k ∧ k ≠ "" ∧ v = "Bearer " ++ k)
      ∧ (cfg.mode = .local →
          (catalogRequest cfg).headers.lookup "Authorization" = none) := by
  intro cfg v
  obtain ⟨m, b, a⟩ := cfg
  cases m with
  | «local» =>
    refine ⟨?_, fun _ => ?_⟩ <;> simp [catalogRequest, List.lookup]
  | cloud =>
    refine ⟨?_, fun h => by simp at h⟩
    cases a with
    | none => simp [catalogRequest, List.lookup]
    | some k =>
      by_cases hk : k = ""
      · subst hk
        simp [catalogRequest, List.lookup]
      · simp [catalogRequest, List.lookup, hk]
        exact eq_comm

/-- An entry of the `models` array whose property reads do not throw:
anything but `null` and `undefined`. -/
def okEntry (m : JSValue) : Bool :=
  match m with
  | .undefined => false
  | .nullv => false
  | _ => true

/-- On a non-throwing entry, the map callback produces exactly
`\x7bname: m.name, key: m.model\x7d`. -/
theorem projectEntry_ok (m : JSValue) (h : okEntry m = true) :
    projectEntry m = .ok ⟨propGet m "name", propGet m "model"⟩ := by
  cases m <;> first | rfl | simp [okEntry] at h

/-- Witness for `projectEntry_ok` at a concrete catalog entry. -/
theorem projectEntry_ok_witness :
    projectEntry (.obj [("name", .str "Llama 3"), ("model", .str "llama3")])
      = .ok ⟨.str "Llama 3", .str "llama3"⟩ :=
  projectEntry_ok (.obj [("name", .str "Llama 3"), ("model", .str "llama3")]) (by rfl)

/-- Mapping the projection over a list of non-throwing entries succeeds and
is the pointwise projection. -/
theorem mapProjectList_ok (l : List JSValue) (h : ∀ m ∈ l, okEntry m = true) :
    mapProjectList l
      = .ok (l.map (fun m => ⟨propGet m "name", propGet m "model"⟩)) := by
  induction l with
  | nil => rfl
  | cons m rest ih =>
    have hm := h m (List.mem_cons_self m rest)
    have hrest := fun x hx => h x (List.mem_cons_of_mem m hx)
    simp [mapProjectList, projectEntry_ok m hm, ih hrest]

/-- Witness for `mapProjectList_ok` at a concrete two-entry list. -/
theorem mapProjectList_ok_witness :
    mapProjectList [.obj [("name", .str "A"), ("model", .str "a")], .obj []]
      = .ok [⟨.str "A", .str "a"⟩, ⟨.undefined, .undefined⟩] :=
  mapProjectList_ok [.obj [("name", .str "A"), ("model", .str "a")], .obj []]
    (by intro m hm; simp only [List.mem_cons, List.not_mem_nil, or_false] at hm
        rcases hm with h | h <;> subst h <;> rfl)

/-- `getDefaultModels` succeeds exactly when the try block does, with the
same value (the catch only rewrites errors). -/
theorem getDefaultModels_ok_iff (cfg : OllamaConfig) (outcome : FetchOutcome)
    (ml : ModelList) :
    getDefaultModels cfg outcome = .ok ml ↔ fetchAttempt outcome = .ok ml := by
  unfold getDefaultModels
  split
  · rename_i heq
    rw [heq]
    simp
  · rename_i heq
    constructor <;> intro h <;> simp_all

/-- Witness for `getDefaultModels_ok_iff` at a concrete parsed body. -/
theorem getDefaultModels_ok_iff_witness :
    getDefaultModels ⟨Mode.local, none, none⟩ (.parsed (.obj [("models", .arr [])]))
      = .ok ⟨[], []⟩ :=
  (getDefaultModels_ok_iff ⟨Mode.local, none, none⟩
    (.parsed (.obj [("models", .arr [])])) ⟨[], []⟩).mpr (by rfl)

/-- C6: every successful `getDefaultModels` result has `chat = embedding`;
on a parsed body `\x7bmodels: [...]\x7d` whose entries do not throw, the result
is exactly the list of `Model\x7bname: entry.name, key: entry.model\x7d`
projections, returned as both lists; on the spec's mocked body
`\x7bmodels:[\x7bname:"Llama 3", model:"llama3"\x7d]\x7d` the result is
`[\x7bname:"Llama 3", key:"llama3"\x7d]` twice. -/
theorem getDefaultModels_projection :
    (∀ (cfg : OllamaConfig) (outcome : FetchOutcome) (ml : ModelList),
      getDefaultModels cfg outcome = .ok ml → ml.chat = ml.embedding)
    ∧ (∀ (cfg : OllamaConfig) (l : List JSValue), (∀ m ∈ l, okEntry m = true) →
        getDefaultModels cfg (.parsed (.obj [("models", .arr l)]))
          = .ok { embedding := l.map (fun m => ⟨propGet m "name", propGet m "model"⟩),
                  chat := l.map (fun m => ⟨propGet m "name", propGet m "model"⟩) })
    ∧ getDefaultModels ⟨.local, none, none⟩
        (.parsed (.obj [("models",
          .arr [.obj [("name", .str "Llama 3"), ("model", .str "llama3")]])]))
        = .ok { embedding := [⟨.str "Llama 3", .str "llama3"⟩],
                chat := [⟨.str "Llama 3", .str "llama3"⟩] } := by
  refine ⟨?_, ?_, by rfl⟩
  · intro cfg outcome ml h
    rw [getDefaultModels_ok_iff] at h
    cases outcome with
    | networkFailure => simp [fetchAttempt] at h
    | malformedJSON => simp [fetchAttempt] at h
    | parsed data =>
      simp only [fetchAttempt] at h
      split at h
      · simp at h
      · split at h
        · simp at h
        · injection h with h2
          subst h2
          rfl
  · intro cfg l h
    rw [getDefaultModels_ok_iff]
    simp [fetchAttempt, propGetE, propGet, mapProject, mapProjectList_ok l h]

/-- Witness for `getDefaultModels_projection` at a concrete entry list. -/
theorem getDefaultModels_projection_witness :
    getDefaultModels ⟨Mode.cloud, none, some "k"⟩
        (.parsed (.obj [("models", .arr [.obj [("name", .str "A"), ("model", .str "a")]])]))
      = .ok { embedding := [⟨.str "A", .str "a"⟩], chat := [⟨.str "A", .str "a"⟩] } :=
  getDefaultModels_projection.2.1 ⟨Mode.cloud, none, some "k"⟩
    [.obj [("name", .str "A"), ("model", .str "a")]]
    (by intro m hm
        simp only [List.mem_cons, List.not_mem_nil, or_false] at hm
        subst hm
        rfl)

/-- Counterexample to C2: for the valid JSON body `\x7b\x7d` (no `models`
array) the try block raises a `TypeError` (reading `.map` off `undefined`),
and `getDefaultModels` returns the `ConnectionError` instead of propagating
that error unchanged — contradicting the claim that an unexpected response
shape propagates unchanged to the caller. -/
theorem getDefaultModels_shape_error_counterexample :
    fetchAttempt (.parsed (.obj []))
        = .error (.typeError "Cannot read properties of undefined (reading map)")
      ∧ getDefaultModels ⟨Mode.local, none, none⟩ (.parsed (.obj []))
        = .error (.genericError connectionErrorMsg)
      ∧ JSError.genericError connectionErrorMsg
        ≠ JSError.typeError "Cannot read properties of undefined (reading map)" :=
  ⟨rfl, rfl, by simp⟩

/-- C2 (amended): a transport-level failure of the fetch, and more generally
every `TypeError` raised inside the try block (including the one raised by
an unexpected response shape without a `models` array), is translated into
the `ConnectionError` advising the caller to check the base URL and server;
every non-`TypeError` error — such as malformed JSON, a `SyntaxError` —
propagates unchanged to the caller. -/
theorem getDefaultModels_error_translation :
    ∀ (cfg : OllamaConfig) (outcome : FetchOutcome),
      (outcome = .networkFailure →
        getDefaultModels cfg outcome = .error (.genericError connectionErrorMsg))
      ∧ (∀ s, fetchAttempt outcome = .error (.typeError s) →
          getDefaultModels cfg outcome = .error (.genericError connectionErrorMsg))
      ∧ (∀ e, fetchAttempt outcome = .error e → (∀ s, e ≠ .typeError s) →
          getDefaultModels cfg outcome = .error e)
      ∧ (outcome = .malformedJSON →
          ∃ s, getDefaultModels cfg outcome = .error (.syntaxError s)
            ∧ fetchAttempt outcome = .error (.syntaxError s)) := by
  intro cfg outcome
  refine ⟨?_, ?_, ?_, ?_⟩
  · intro h
    subst h
    rfl
  · intro s h
    unfold getDefaultModels
    rw [h]
  · intro e h hne
    unfold getDefaultModels
    rw [h]
    cases e with
    | typeError s => exact absurd rfl (hne s)
    | syntaxError s => rfl
    | genericError s => rfl
  · intro h
    subst h
    exact ⟨_, rfl, rfl⟩

/-- Witness for `getDefaultModels_error_translation`: a malformed-JSON
failure propagates as its `SyntaxError`; a network failure becomes the
`ConnectionError`. -/
theorem getDefaultModels_error_translation_witness :
    getDefaultModels ⟨Mode.local, none, none⟩ .malformedJSON
        = .error (.syntaxError "Unexpected token, not valid JSON")
      ∧ getDefaultModels ⟨Mode.local, none, none⟩ .networkFailure
        = .error (.genericError connectionErrorMsg) :=
  ⟨(getDefaultModels_error_translation ⟨Mode.local, none, none⟩ .malformedJSON).2.2.1
      (.syntaxError "Unexpected token, not valid JSON") rfl (fun s => by simp),
   (getDefaultModels_error_translation ⟨Mode.local, none, none⟩ .networkFailure).1 rfl⟩

/-- C3: whenever the catalog fetch succeeds with list `d` and the registry
has an entry `p`, `getModelList` returns, independently for chat and
embedding, exactly the concatenation with catalog entries first; counts are
additive for every predicate, so no deduplication happens and a key present
in both sources appears twice. -/
theorem getModelList_concat :
    ∀ (cfg : OllamaConfig) (outcome : FetchOutcome) (p : ConfiguredProvider)
      (d : ModelList),
      getDefaultModels cfg outcome = .ok d →
      getModelList cfg outcome (some p)
          = .ok { embedding := d.embedding ++ p.embeddingModels,
                  chat := d.chat ++ p.chatModels }
        ∧ (∀ pred : Model → Bool,
            (d.chat ++ p.chatModels).countP pred
                = d.chat.countP pred + p.chatModels.countP pred
              ∧ (d.embedding ++ p.embeddingModels).countP pred
                = d.embedding.countP pred + p.embeddingModels.countP pred) := by
  intro cfg outcome p d h
  constructor
  · unfold getModelList
    rw [h]
  · intro pred
    exact ⟨List.countP_append pred d.chat p.chatModels,
      List.countP_append pred d.embedding p.embeddingModels⟩

/-- Witness for `getModelList_concat`: the key `"llama3"` present in both
the catalog and the registry appears twice in the merged chat list. -/
theorem getModelList_concat_witness :
    getModelList ⟨Mode.local, none, none⟩
        (.parsed (.obj [("models",
          .arr [.obj [("name", .str "Llama 3"), ("model", .str "llama3")]])]))
        (some ⟨[⟨.str "llama3", .str "llama3"⟩], []⟩)
      = .ok { embedding := [⟨.str "Llama 3", .str "llama3"⟩],
              chat := [⟨.str "Llama 3", .str "llama3"⟩, ⟨.str "llama3", .str "llama3"⟩] }
      ∧ (([⟨.str "Llama 3", .str "llama3"⟩] : List Model)
            ++ ([⟨.str "llama3", .str "llama3"⟩] : List Model)).countP
            (fun (m : Model) => jsStrictEqStr m.key "llama3")
        = ([⟨.str "Llama 3", .str "llama3"⟩] : List Model).countP
            (fun (m : Model) => jsStrictEqStr m.key "llama3")
          + ([⟨.str "llama3", .str "llama3"⟩] : List Model).countP
            (fun (m : Model) => jsStrictEqStr m.key "llama3") :=
  ⟨(getModelList_concat ⟨Mode.local, none, none⟩
      (.parsed (.obj [("models",
        .arr [.obj [("name", .str "Llama 3"), ("model", .str "llama3")]])]))
      ⟨[⟨.str "llama3", .str "llama3"⟩], []⟩
      ⟨[⟨.str "Llama 3", .str "llama3"⟩], [⟨.str "Llama 3", .str "llama3"⟩]⟩
      (by rfl)).1,
   ((getModelList_concat ⟨Mode.local, none, none⟩
      (.parsed (.obj [("models",
        .arr [.obj [("name", .str "Llama 3"), ("model", .str "llama3")]])]))
      ⟨[⟨.str "llama3", .str "llama3"⟩], []⟩
      ⟨[⟨.str "Llama 3", .str "llama3"⟩], [⟨.str "Llama 3", .str "llama3"⟩]⟩
      (by rfl)).2 (fun (m : Model) => jsStrictEqStr m.key "llama3")).1⟩


/-- After the catch, `getDefaultModels` can never surface a `TypeError`. -/
theorem getDefaultModels_no_typeError (cfg : OllamaConfig)
    (outcome : FetchOutcome) (s : String) :
    getDefaultModels cfg outcome ≠ .error (.typeError s) := by
  unfold getDefaultModels
  split
  · simp
  · rename_i hne
    intro h
    exact hne s h

/-- Under a successful fetch and a present registry entry, `getModelList`
is the explicit concatenation (helper for the loader proofs). -/
theorem getModelList_some_ok (cfg : OllamaConfig) (outcome : FetchOutcome)
    (p : ConfiguredProvider) (d : ModelList)
    (h : getDefaultModels cfg outcome = .ok d) :
    getModelList cfg outcome (some p)
      = .ok { embedding := d.embedding ++ p.embeddingModels,
              chat := d.chat ++ p.chatModels } := by
  unfold getModelList
  rw [h]

/-- With the merged model list in hand, `loadChatModel` reduces to the
`find?` over the chat list. -/
theorem loadChatModel_eq_find (cfg : OllamaConfig) (outcome : FetchOutcome)
    (reg : Option ConfiguredProvider) (ml : ModelList) (key : String)
    (h : getModelList cfg outcome reg = .ok ml) :
    loadChatModel cfg outcome reg key
      = match ml.chat.find? (fun m => jsStrictEqStr m.key key) with
        | none => .error (.genericError chatNotFoundMsg)
        | some _ =>
          .ok { baseURL := baseURLInLoadChatModel cfg, model := key,
                apiKey := if cfg.mode = .cloud then cfg.apiKey else none } := by
  unfold loadChatModel
  rw [h]

/-- With the merged model list in hand, `loadEmbeddingModel` reduces to the
`find?` over the embedding list. -/
theorem loadEmbeddingModel_eq_find (cfg : OllamaConfig) (outcome : FetchOutcome)
    (reg : Option ConfiguredProvider) (ml : ModelList) (key : String)
    (h : getModelList cfg outcome reg = .ok ml) :
    loadEmbeddingModel cfg outcome reg key
      = match ml.embedding.find? (fun m => jsStrictEqStr m.key key) with
        | none => .error (.genericError embeddingNotFoundMsg)
        | some _ =>
          .ok { model := key, baseURL := baseURLInLoadEmbeddingModel cfg,
                apiKey := if cfg.mode = .cloud then cfg.apiKey else none } := by
  unfold loadEmbeddingModel
  rw [h]

/-- C4: under a successful fetch (`d`) and a present registry entry (`p`),
`loadChatModel(key)` rejects with the chat `ModelNotFoundError` exactly when
no merged chat entry's `key` is strictly equal to `key`; when one is, it
constructs the chat client with the resolved base URL, `model = key`, and
`apiKey` only in cloud mode.  `loadEmbeddingModel` is symmetric over the
embedding list, and the two error messages are distinct. -/
theorem loadModel_key_lookup :
    ∀ (cfg : OllamaConfig) (outcome : FetchOutcome) (p : ConfiguredProvider)
      (d : ModelList) (key : String),
      getDefaultModels cfg outcome = .ok d →
      ((loadChatModel cfg outcome (some p) key
          = .error (.genericError chatNotFoundMsg)
        ↔ ∀ m ∈ d.chat ++ p.chatModels, m.key ≠ .str key)
      ∧ ((∃ m ∈ d.chat ++ p.chatModels, m.key = .str key) →
          loadChatModel cfg outcome (some p) key
            = .ok { baseURL := resolveBaseURL cfg, model := key,
                    apiKey := if cfg.mode = .cloud then cfg.apiKey else none })
      ∧ (loadEmbeddingModel cfg outcome (some p) key
          = .error (.genericError embeddingNotFoundMsg)
        ↔ ∀ m ∈ d.embedding ++ p.embeddingModels, m.key ≠ .str key)
      ∧ ((∃ m ∈ d.embedding ++ p.embeddingModels, m.key = .str key) →
          loadEmbeddingModel cfg outcome (some p) key
            = .ok { model := key, baseURL := resolveBaseURL cfg,
                    apiKey := if cfg.mode = .cloud then cfg.apiKey else none })
      ∧ chatNotFoundMsg ≠ embeddingNotFoundMsg) := by
  intro cfg outcome p d key h
  have hml := getModelList_some_ok cfg outcome p d h
  have hchat := loadChatModel_eq_find cfg outcome (some p) _ key hml
  have hemb := loadEmbeddingModel_eq_find cfg outcome (some p) _ key hml
  refine ⟨?_, ?_, ?_, ?_, by simp [chatNotFoundMsg, embeddingNotFoundMsg]⟩
  · rw [hchat]
    cases hf : (d.chat ++ p.chatModels).find? (fun m => jsStrictEqStr m.key key) with
    | none =>
      rw [List.find?_eq_none] at hf
      simp only [true_iff]
      intro m hm
      have := hf m hm
      rw [Bool.not_eq_true, jsStrictEqStr_eq_false_iff] at this
      exact this
    | some m =>
      simp only [Except.ok.injEq, reduceCtorEq, false_iff, not_forall]
      have hmem := List.mem_of_find?_eq_some hf
      have hpred := List.find?_some hf
      rw [jsStrictEqStr_iff] at hpred
      exact ⟨m, hmem, fun hne => hne hpred⟩
  · rintro ⟨m, hmem, hkey⟩
    rw [hchat]
    cases hf : (d.chat ++ p.chatModels).find? (fun m => jsStrictEqStr m.key key) with
    | none =>
      rw [List.find?_eq_none] at hf
      exact absurd ((jsStrictEqStr_iff _ _).mpr hkey) (hf m hmem)
    | some m2 => rfl
  · rw [hemb]
    cases hf : (d.embedding ++ p.embeddingModels).find? (fun m => jsStrictEqStr m.key key) with
    | none =>
      rw [List.find?_eq_none] at hf
      simp only [true_iff]
      intro m hm
      have := hf m hm
      rw [Bool.not_eq_true, jsStrictEqStr_eq_false_iff] at this
      exact this
    | some m =>
      simp only [Except.ok.injEq, reduceCtorEq, false_iff, not_forall]
      have hmem := List.mem_of_find?_eq_some hf
      have hpred := List.find?_some hf
      rw [jsStrictEqStr_iff] at hpred
      exact ⟨m, hmem, fun hne => hne hpred⟩
  · rintro ⟨m, hmem, hkey⟩
    rw [hemb]
    cases hf : (d.embedding ++ p.embeddingModels).find? (fun m => jsStrictEqStr m.key key) with
    | none =>
      rw [List.find?_eq_none] at hf
      exact absurd ((jsStrictEqStr_iff _ _).mpr hkey) (hf m hmem)
    | some m2 => rfl

/-- Witness for `loadModel_key_lookup`: loading the catalog key succeeds
with the local base URL and no API key; loading a missing key rejects with
the embedding `ModelNotFoundError`. -/
theorem loadModel_key_lookup_witness :
    loadChatModel ⟨Mode.local, none, none⟩
        (.parsed (.obj [("models",
          .arr [.obj [("name", .str "Llama 3"), ("model", .str "llama3")]])]))
        (some ⟨[], []⟩) "llama3"
      = .ok { baseURL := "http://localhost:11434", model := "llama3", apiKey := none }
    ∧ loadEmbeddingModel ⟨Mode.local, none, none⟩
        (.parsed (.obj [("models",
          .arr [.obj [("name", .str "Llama 3"), ("model", .str "llama3")]])]))
        (some ⟨[], []⟩) "nonexistent"
      = .error (.genericError embeddingNotFoundMsg) :=
  ⟨(loadModel_key_lookup ⟨Mode.local, none, none⟩
      (.parsed (.obj [("models",
        .arr [.obj [("name", .str "Llama 3"), ("model", .str "llama3")]])]))
      ⟨[], []⟩ ⟨[⟨.str "Llama 3", .str "llama3"⟩], [⟨.str "Llama 3", .str "llama3"⟩]⟩
      "llama3" (by rfl)).2.1
      ⟨⟨.str "Llama 3", .str "llama3"⟩, by simp, rfl⟩,
   (loadModel_key_lookup ⟨Mode.local, none, none⟩
      (.parsed (.obj [("models",
        .arr [.obj [("name", .str "Llama 3"), ("model", .str "llama3")]])]))
      ⟨[], []⟩ ⟨[⟨.str "Llama 3", .str "llama3"⟩], [⟨.str "Llama 3", .str "llama3"⟩]⟩
      "nonexistent" (by rfl)).2.2.1.mpr
      (by
        intro m hm
        simp only [List.append_nil, List.mem_singleton] at hm
        subst hm
        intro hc
        injection hc with h2
        exact absurd h2 (by decide))⟩

/-- C10: `getModelList` has the unstated precondition that the registry has
an entry for this provider id.  When the lookup returns nothing and the
fetch succeeded, the non-null assertion makes the operation fail with an
untyped runtime `TypeError` — not one of the specified error kinds (all of
which are plain `Error`s) — and when the lookup succeeds that failure is
unreachable: no `TypeError` can surface from `getModelList`. -/
theorem getModelList_registry_precondition :
    ∀ (cfg : OllamaConfig) (outcome : FetchOutcome),
      (∀ d : ModelList, getDefaultModels cfg outcome = .ok d →
        getModelList cfg outcome none = .error (.typeError registryMissingMsg))
      ∧ (∀ (p : ConfiguredProvider) (s : String),
          getModelList cfg outcome (some p) ≠ .error (.typeError s))
      ∧ (∀ s m, JSError.typeError s ≠ .genericError m) := by
  intro cfg outcome
  refine ⟨?_, ?_, by simp⟩
  · intro d h
    unfold getModelList
    rw [h]
  · intro p s
    unfold getModelList
    cases hd : getDefaultModels cfg outcome with
    | error e =>
      show Except.error e ≠ Except.error (JSError.typeError s)
      intro hc
      injection hc with h2
      subst h2
      exact getDefaultModels_no_typeError cfg outcome s hd
    | ok d2 =>
      show Except.ok (ModelList.mk (d2.embedding ++ p.embeddingModels)
            (d2.chat ++ p.chatModels))
          ≠ Except.error (JSError.typeError s)
      simp

/-- Witness for `getModelList_registry_precondition` at a successful fetch
with an empty catalog and an absent registry entry. -/
theorem getModelList_registry_precondition_witness :
    getModelList ⟨Mode.local, none, none⟩ (.parsed (.obj [("models", .arr [])])) none
      = .error (.typeError registryMissingMsg) :=
  (getModelList_registry_precondition ⟨Mode.local, none, none⟩
    (.parsed (.obj [("models", .arr [])]))).1 ⟨[], []⟩ (by rfl)

/-- Witness for `catalogRequest_auth_header`: a cloud request carries the
bearer header, a local request carries none. -/
theorem catalogRequest_auth_header_witness :
    (catalogRequest ⟨Mode.cloud, none, some "k"⟩).headers.lookup "Authorization"
        = some ("Bearer " ++ "k")
      ∧ (catalogRequest ⟨Mode.local, some "http://x:1", none⟩).headers.lookup
          "Authorization" = none :=
  ⟨(catalogRequest_auth_header ⟨Mode.cloud, none, some "k"⟩ ("Bearer " ++ "k")).1.mpr
      ⟨"k", rfl, rfl, by decide, rfl⟩,
   (catalogRequest_auth_header ⟨Mode.local, some "http://x:1", none⟩ "").2 rfl⟩
